import Mathlib

/-!
Verification of the vslam repository's pose-estimation core against its
natural-language specification.

The development shallowly embeds the relevant Python code:
* `lessons/simdata/ex_03_estimate_current_pose.py` — the first-order-descent
  and single-point-overfit pose estimation experiments;
* `lessons/ex_04_full_frontend.py` — `get_angular_error` and the keyword
  arguments of the `_process_debug_info` calls into the localization debugger;
* `vslam/debug.py` — the `LocalizationDebugger` pose-history buffers.

Components of the repository that are not part of the provided sources
(`vslam/pnp.py`, `vslam/tracking.py`, `vslam/frontend.py`, `vslam/transforms.py`)
are modelled from the specification; each such definition carries a doc
comment starting with `Modelled from the spec:`.

Real-valued code (projection, Jacobians, SE(3) exponential, angle wrapping)
is embedded over `ℝ`; the structural/stateful components (guarded projection,
velocity tracker, frontend state machine, debugger buffers) are embedded over
`ℚ` so that all of them are executable.
-/

namespace VSLAM

open Matrix

/-! ## Rational-side pose algebra (used by the guarded projection model,
the velocity pose tracker and the frontend model) -/

/-- A pose / rigid transform as a 4×4 homogeneous rational matrix
(`vslam.types.CameraPoseSE3` / `TransformSE3`). -/
abbrev PoseQ := Matrix (Fin 4) (Fin 4) ℚ

/-- Modelled from the spec: `vslam.transforms.SE3_inverse` is not under the
provided sources.  §4.1 contract `invert(A) -> A⁻¹`; for an SE(3) matrix
`[R t; 0 1]` the inverse is `[Rᵀ −Rᵀt; 0 1]`. -/
def SE3_inverse (T : PoseQ) : PoseQ :=
  Matrix.of fun i j =>
    if (i : ℕ) < 3 then
      if (j : ℕ) < 3 then T j i
      else -(T 0 i * T 0 3 + T 1 i * T 1 3 + T 2 i * T 2 3)
    else if (j : ℕ) < 3 then 0 else 1

/-! ## C4: guarded pinhole projection -/

/-- A 3D point in camera-flipped coordinates, rational model. -/
abbrev Vec3Q := Fin 3 → ℚ

/-- A normalized 2D image coordinate, rational model. -/
abbrev Vec2Q := Fin 2 → ℚ

/-- Modelled from the spec: the projection routine of the vslam core is not
under the provided sources (the lesson file only inlines the unguarded
division at `ex_03_estimate_current_pose.py:60-64`).  §4.2:
`project(point3d) -> point2d = (x/z, y/z)`; fails (returns a sentinel /
raises a DegenerateDepth condition, modelled as `none`) when `z <= 0`. -/
def project (p : Vec3Q) : Option Vec2Q :=
  if 0 < p 2 then some ![p 0 / p 2, p 1 / p 2] else none

/-! ## C5: velocity-based pose predictor -/

/-- Modelled from the spec: `vslam.tracking.VelocityPoseTracker` is not under
the provided sources.  §4.5: holds the last observed pose and the last pose
delta, plus the configured default pose returned before any history exists. -/
structure VelocityPoseTracker where
  default_pose : PoseQ
  last_pose : Option PoseQ
  last_delta : Option PoseQ

/-- Modelled from the spec: construction with a configured default pose and
no history (`VelocityPoseTracker(get_SE3_pose(y=-5.))` in the lesson). -/
def VelocityPoseTracker.build (default_pose : PoseQ) : VelocityPoseTracker :=
  { default_pose := default_pose, last_pose := none, last_delta := none }

/-- Modelled from the spec: §4.5 `update(new_pose)` recomputes the delta from
the previous pose to `new_pose` (`delta = prev⁻¹ ∘ new_pose`), then stores
`new_pose` as the new last pose. -/
def VelocityPoseTracker.update (t : VelocityPoseTracker) (new_pose : PoseQ) :
    VelocityPoseTracker :=
  match t.last_pose with
  | none => { t with last_pose := some new_pose }
  | some prev =>
      { t with last_pose := some new_pose,
               last_delta := some (SE3_inverse prev * new_pose) }

/-- Modelled from the spec: §4.5 `predict()` composes the last pose with the
last delta (constant-velocity extrapolation); on the very first call (no
history) returns the configured default pose. -/
def VelocityPoseTracker.predict (t : VelocityPoseTracker) : PoseQ :=
  match t.last_pose, t.last_delta with
  | some p, some d => p * d
  | some p, none => p
  | none, _ => t.default_pose

/-! ## C9: keyword arguments of `_process_debug_info` vs `vslam/debug.py` -/

/-- Parameters accepted by `LocalizationDebugger.add_keyframe`
(`vslam/debug.py:317-321`), excluding `self`. -/
def add_keyframe_params : List String :=
  ["keyframe_baselink_pose", "keyframe_img"]

/-- Parameters accepted by `LocalizationDebugger.add_pose_estimate`
(`vslam/debug.py:329-334`), excluding `self`. -/
def add_pose_estimate_params : List String :=
  ["baselink_pose_groundtruth", "baselink_pose_estimate", "current_image"]

/-- Keyword arguments passed by `_process_debug_info` to `add_keyframe`
(`lessons/ex_04_full_frontend.py:37-42`). -/
def add_keyframe_call_kwargs : List String :=
  ["keyframe_baselink_pose", "keyframe_left_img", "keyframe_right_img",
   "feature_matches_or_none"]

/-- Keyword arguments passed by `_process_debug_info` to `add_pose_estimate`
(`lessons/ex_04_full_frontend.py:57-64`). -/
def add_pose_estimate_call_kwargs : List String :=
  ["baselink_pose_groundtruth", "baselink_pose_estimate",
   "current_left_eye_image", "current_right_eye_image",
   "feature_matches_or_none", "frames_since_keyframe"]

/-- A Python call with keyword arguments succeeds (no unexpected-keyword
TypeError) only if every passed keyword is among the accepted parameters. -/
def kwargsAccepted (passed accepted : List String) : Prop :=
  ∀ kw ∈ passed, kw ∈ accepted

instance (passed accepted : List String) :
    Decidable (kwargsAccepted passed accepted) := by
  unfold kwargsAccepted; infer_instance

/-! ## C10: `LocalizationDebugger` pose-history buffers -/

/-- Append to a `collections.deque(maxlen=64)` modelled as a list: when the
buffer is full the oldest (leftmost) entry is evicted. -/
def dequeAppend64 {α : Type} (d : List α) (x : α) : List α :=
  if d.length < 64 then d ++ [x] else d.tail ++ [x]

/-- The state of `LocalizationDebugger` (`vslam/debug.py:277-285`) relevant to
its buffers: the two pose histories (deques with `maxlen=64`) and the two
stored images.  The rendering-only fields (`ui_layout`,
`scene_display_renderer`, `cam_specs`) carry no buffer state and are omitted;
images are abstracted by an index. -/
structure LocalizationDebugger where
  keyframe_img : Option ℕ
  current_img : Option ℕ
  estimated_pose_history : List PoseQ
  ground_truth_pose_history : List PoseQ

/-- `LocalizationDebugger.from_scene` starts with empty histories and no
stored images (`vslam/debug.py:287-315`: only rendering fields are set). -/
def LocalizationDebugger.from_scene : LocalizationDebugger :=
  { keyframe_img := none, current_img := none,
    estimated_pose_history := [], ground_truth_pose_history := [] }

/-- `LocalizationDebugger.add_keyframe` (`vslam/debug.py:317-327`): draws a
view cone on the scene renderer (rendering, not modelled) and stores the
keyframe image; the pose histories are untouched. -/
def LocalizationDebugger.add_keyframe (d : LocalizationDebugger)
    (_keyframe_baselink_pose : PoseQ) (keyframe_img : ℕ) :
    LocalizationDebugger :=
  { d with keyframe_img := some keyframe_img }

/-- `LocalizationDebugger.add_pose_estimate` (`vslam/debug.py:329-337`):
appends the estimate to `estimated_pose_history`, the ground truth to
`ground_truth_pose_history`, and stores the current image. -/
def LocalizationDebugger.add_pose_estimate (d : LocalizationDebugger)
    (baselink_pose_groundtruth baselink_pose_estimate : PoseQ)
    (current_image : ℕ) : LocalizationDebugger :=
  { d with
    estimated_pose_history :=
      dequeAppend64 d.estimated_pose_history baselink_pose_estimate,
    ground_truth_pose_history :=
      dequeAppend64 d.ground_truth_pose_history baselink_pose_groundtruth,
    current_img := some current_image }

/-- One call into the debugger's mutating interface. -/
inductive DebuggerOp where
  | addKeyframe (pose : PoseQ) (img : ℕ)
  | addPoseEstimate (gt est : PoseQ) (img : ℕ)

/-- Run a sequence of debugger calls from a starting state. -/
def runDebuggerOps (d : LocalizationDebugger) : List DebuggerOp → LocalizationDebugger
  | [] => d
  | (.addKeyframe pose img) :: ops =>
      runDebuggerOps (d.add_keyframe pose img) ops
  | (.addPoseEstimate gt est img) :: ops =>
      runDebuggerOps (d.add_pose_estimate gt est img) ops

/-! ## Real-valued embedding: projection, residual, Jacobians, SE(3) exp
(`lessons/simdata/ex_03_estimate_current_pose.py` and the §4.1-§4.3 leaves it
calls in `vslam/pnp.py`, which is not under the provided sources) -/

/-- A pose as a 4×4 homogeneous real matrix. -/
abbrev PoseR := Matrix (Fin 4) (Fin 4) ℝ

/-- Homogenize a 3D point. -/
def homog (p : Fin 3 → ℝ) : Fin 4 → ℝ := ![p 0, p 1, p 2, 1]

/-- Apply a homogeneous transform to a 3D point and drop the final
coordinate. -/
noncomputable def transformPt (T : PoseR) (p : Fin 3 → ℝ) : Fin 3 → ℝ :=
  ![(T *ᵥ homog p) 0, (T *ᵥ homog p) 1, (T *ᵥ homog p) 2]

/-- Unguarded pinhole projection `(x/z, y/z)` as inlined at
`ex_03_estimate_current_pose.py:62-64` (division by the depth row). -/
noncomputable def projectR (q : Fin 3 → ℝ) : Fin 2 → ℝ :=
  ![q 0 / q 2, q 1 / q 2]

/-- Modelled from the spec: `vslam.pnp._compute_reprojection_error` is not
under the provided sources.  §4.3:
`residual(point3d, point2d, inv_pose) = project(transform(inv_pose, point3d)) - point2d`. -/
noncomputable def _compute_reprojection_error
    (point_3d : Fin 3 → ℝ) (point_2d : Fin 2 → ℝ) (inv_pose : PoseR) :
    Fin 2 → ℝ :=
  projectR (transformPt inv_pose point_3d) - point_2d

/-- The skew-symmetric cross-product matrix of a 3-vector (the rotation
generator of §4.3). -/
def skewR (v : Fin 3 → ℝ) : Matrix (Fin 3) (Fin 3) ℝ :=
  !![0, -v 2, v 1; v 2, 0, -v 0; -v 1, v 0, 0]

/-- Derivative of the projection with respect to the transformed 3D point
(§4.2 "analytic partial derivative of `project`"). -/
noncomputable def dProjR (q : Fin 3 → ℝ) : Matrix (Fin 2) (Fin 3) ℝ :=
  !![1 / q 2, 0, -(q 0) / q 2 ^ 2; 0, 1 / q 2, -(q 1) / q 2 ^ 2]

/-- Derivative of the SE(3) action with respect to the 6 tangent parameters
(§4.3: identity block for the 3 translational dimensions, negated
skew-symmetric generator block for the 3 rotational ones). -/
def dActionR (q : Fin 3 → ℝ) : Matrix (Fin 3) (Fin 6) ℝ :=
  !![1, 0, 0, 0, q 2, -q 1;
     0, 1, 0, -q 2, 0, q 0;
     0, 0, 1, q 1, -q 0, 0]

/-- Modelled from the spec: `vslam.pnp.estimate_J_analytically` is not under
the provided sources.  §4.3 `jacobian_analytic`: chain rule, derivative of
projection composed with derivative of the SE(3) action; transposed so that
`J *ᵥ e` is a 6-vector as in `dx = J @ e`. -/
noncomputable def estimate_J_analytically (point_3d : Fin 3 → ℝ)
    (inv_pose : PoseR) : Matrix (Fin 6) (Fin 2) ℝ :=
  (dProjR (transformPt inv_pose point_3d) *
    dActionR (transformPt inv_pose point_3d))ᵀ

/-- The translational part of a 6-dimensional tangent vector (the source's
axis-convention experiment fixes translation first, rotation last). -/
def transPartOf (ξ : Fin 6 → ℝ) : Fin 3 → ℝ := ![ξ 0, ξ 1, ξ 2]

/-- The rotational part of a 6-dimensional tangent vector. -/
def rotPartOf (ξ : Fin 6 → ℝ) : Fin 3 → ℝ := ![ξ 3, ξ 4, ξ 5]

/-- Euclidean norm of the rotational part. -/
noncomputable def omegaNorm (ω : Fin 3 → ℝ) : ℝ :=
  Real.sqrt (ω 0 ^ 2 + ω 1 ^ 2 + ω 2 ^ 2)

/-- Rodrigues rotation block of the SE(3) exponential
(`liegroups.numpy.se3.SE3Matrix.exp`).  At `θ = 0` every correction term
vanishes because `skewR ω = 0`. -/
noncomputable def se3ExpRot (ω : Fin 3 → ℝ) : Matrix (Fin 3) (Fin 3) ℝ :=
  1 + (Real.sin (omegaNorm ω) / omegaNorm ω) • skewR ω +
    ((1 - Real.cos (omegaNorm ω)) / omegaNorm ω ^ 2) • (skewR ω * skewR ω)

/-- Left Jacobian block `V` of the SE(3) exponential, mapping the tangent
translation to the pose translation. -/
noncomputable def se3ExpV (ω : Fin 3 → ℝ) : Matrix (Fin 3) (Fin 3) ℝ :=
  1 + ((1 - Real.cos (omegaNorm ω)) / omegaNorm ω ^ 2) • skewR ω +
    ((omegaNorm ω - Real.sin (omegaNorm ω)) / omegaNorm ω ^ 3) •
      (skewR ω * skewR ω)

/-- The SE(3) exponential map `SE3Matrix.exp(ξ).as_matrix()`: tangent order is
translation `(ξ0, ξ1, ξ2)` then rotation `(ξ3, ξ4, ξ5)`, matching the
convention checked in `_experiment_what_is_the_meaning_of_the_axes`. -/
noncomputable def se3Exp (ξ : Fin 6 → ℝ) : PoseR :=
  Matrix.of fun i j =>
    if hi : (i : ℕ) < 3 then
      if hj : (j : ℕ) < 3 then se3ExpRot (rotPartOf ξ) ⟨i, hi⟩ ⟨j, hj⟩
      else (se3ExpV (rotPartOf ξ) *ᵥ transPartOf ξ) ⟨i, hi⟩
    else if (j : ℕ) < 3 then 0 else 1

/-- The perturbation step of the numerical Jacobian (§4.4 documents the
constant `1e-6`). -/
noncomputable def NUMERICAL_STEP : ℝ := 1 / 1000000

/-- The `i`-th tangent coordinate direction. -/
def tangentBasis (i : Fin 6) : Fin 6 → ℝ := fun k => if k = i then 1 else 0

/-- Modelled from the spec: `vslam.pnp.estimate_J_numerically` is not under
the provided sources.  §4.3 `jacobian_numeric`: central-difference
approximation of `∂residual/∂tangent`, perturbing each of the 6 tangent
dimensions by `NUMERICAL_STEP` (the perturbation applied as the same left
tangent composition the optimizer uses). -/
noncomputable def estimate_J_numerically (point_3d : Fin 3 → ℝ)
    (point_2d : Fin 2 → ℝ) (inv_pose : PoseR) : Matrix (Fin 6) (Fin 2) ℝ :=
  Matrix.of fun i j =>
    (_compute_reprojection_error point_3d point_2d
        (se3Exp (NUMERICAL_STEP • tangentBasis i) * inv_pose) j -
      _compute_reprojection_error point_3d point_2d
        (se3Exp ((-NUMERICAL_STEP) • tangentBasis i) * inv_pose) j) /
      (2 * NUMERICAL_STEP)

/-! ## The first-order-descent loop body
(`_solve_many_points_first_order_descent`, lines 155-172) -/

/-- The four per-correspondence accumulator lists `Js, errs, dxs, jac_err` of
the descent loop (line 156). -/
structure DescentAcc where
  Js : List (Matrix (Fin 6) (Fin 2) ℝ)
  errs : List (Fin 2 → ℝ)
  dxs : List (Fin 6 → ℝ)
  jac_err : List ℝ

/-- `np.abs(M).sum()` over a 6×2 matrix. -/
def entrywiseAbsSum (M : Matrix (Fin 6) (Fin 2) ℝ) : ℝ :=
  ∑ i, ∑ j, |M i j|

/-- One pass of the inner correspondence loop (lines 158-167): numeric and
analytic Jacobians, the residual `e`, the raw step `dx = J @ e`, appended to
the accumulator lists. -/
noncomputable def descentBody (inv_pose : PoseR) (acc : DescentAcc)
    (pq : (Fin 3 → ℝ) × (Fin 2 → ℝ)) : DescentAcc :=
  let J_num := estimate_J_numerically pq.1 pq.2 inv_pose
  let J := estimate_J_analytically pq.1 inv_pose
  let e := _compute_reprojection_error pq.1 pq.2 inv_pose
  let dx := J *ᵥ e
  { Js := acc.Js ++ [J],
    errs := acc.errs ++ [e],
    dxs := acc.dxs ++ [dx],
    jac_err := acc.jac_err ++ [entrywiseAbsSum (J - J_num)] }

/-- The full inner loop over the correspondence batch, starting from empty
accumulator lists. -/
noncomputable def descentScan (inv_pose : PoseR)
    (pts : List ((Fin 3 → ℝ) × (Fin 2 → ℝ))) : DescentAcc :=
  pts.foldl (descentBody inv_pose) ⟨[], [], [], []⟩

/-- Componentwise mean of a list of 6-vectors (`np.array(dxs).mean(axis=0)`,
line 169). -/
noncomputable def vecMean (l : List (Fin 6 → ℝ)) : Fin 6 → ℝ :=
  ((l.length : ℝ))⁻¹ • l.sum

/-- The averaged step `dx_est` of one descent iteration (line 169). -/
noncomputable def descentDxEst (pts : List ((Fin 3 → ℝ) × (Fin 2 → ℝ)))
    (inv_pose : PoseR) : Fin 6 → ℝ :=
  vecMean (descentScan inv_pose pts).dxs

/-- Application of a computed batch step to the pose, line 172:
`inv_camera_pose = SE3Matrix.exp(-dx_est).as_matrix() @ inv_camera_pose`. -/
noncomputable def applyDescentStep (dx_est : Fin 6 → ℝ) (inv_pose : PoseR) :
    PoseR :=
  se3Exp (-dx_est) * inv_pose

/-- One full iteration of `_solve_many_points_first_order_descent`: run the
correspondence loop, average the raw steps, update the pose. -/
noncomputable def descentIteration (pts : List ((Fin 3 → ℝ) × (Fin 2 → ℝ)))
    (inv_pose : PoseR) : PoseR :=
  applyDescentStep (descentDxEst pts inv_pose) inv_pose

/-! ## The single-point overfit loop body (`_overfit_one_point`,
lines 129-133) -/

/-- The step `dx = J @ e` of `_overfit_one_point` (lines 130-132), with the
numeric Jacobian as in the source. -/
noncomputable def overfitDx (point_3d : Fin 3 → ℝ) (point_2d : Fin 2 → ℝ)
    (inv_pose : PoseR) : Fin 6 → ℝ :=
  estimate_J_numerically point_3d point_2d inv_pose *ᵥ
    _compute_reprojection_error point_3d point_2d inv_pose

/-- Application of a computed step to the pose, line 133:
`inv_camera_pose = SE3Matrix.exp(-0.1 * dx).as_matrix() @ inv_camera_pose`. -/
noncomputable def applyOverfitStep (dx : Fin 6 → ℝ) (inv_pose : PoseR) :
    PoseR :=
  se3Exp ((-0.1 : ℝ) • dx) * inv_pose

/-- One full iteration of `_overfit_one_point`'s loop. -/
noncomputable def overfitIteration (point_3d : Fin 3 → ℝ)
    (point_2d : Fin 2 → ℝ) (inv_pose : PoseR) : PoseR :=
  applyOverfitStep (overfitDx point_3d point_2d inv_pose) inv_pose

/-! ## C8: `get_angular_error` (`lessons/ex_04_full_frontend.py:68-71`) -/

/-- Python's `%` operator on floats for a positive modulus:
`a % b = a - b * floor(a / b)`. -/
noncomputable def pythonMod (a b : ℝ) : ℝ := a - b * ⌊a / b⌋

/-- `get_angular_error` from `lessons/ex_04_full_frontend.py:68-71`:
`error = est_theta - gt_theta; error = (error + np.pi) % (2 * np.pi) - np.pi`. -/
noncomputable def get_angular_error (est_theta gt_theta : ℝ) : ℝ :=
  pythonMod (est_theta - gt_theta + Real.pi) (2 * Real.pi) - Real.pi

/-! ## C6/C7: frontend state machine model
(`vslam.frontend.Frontend` is not under the provided sources; modelled from
§4.6, §4.7 and §7, with the consumer-side field names taken from
`_process_debug_info` in `lessons/ex_04_full_frontend.py`) -/

/-- Debug payload of a keyframe-estimation frame; field name as read by
`_process_debug_info` (`relevant_feature_matches`).  Matches are abstracted
by identifiers. -/
structure KeyframeEstimationDebugData where
  relevant_feature_matches : List ℕ
deriving DecidableEq

/-- Debug payload of a keyframe-tracking frame; field name as read by
`_process_debug_info` (`all_feature_matches`). -/
structure KeyframeTrackingDebugData where
  all_feature_matches : List ℕ
deriving DecidableEq

/-- Modelled from the spec: the mode-tagged per-frame debug payload of a
`FrontendTrackingResult` (§3 TrackingResult: frames-since-last-keyframe
counter plus two mutually exclusive debug variants), with the optional-field
shape read by `_process_debug_info`
(`keyframe_estimation_debug_data_or_none` /
`keyframe_tracking_debug_data_or_none`). -/
structure FrontendResultDebugData where
  frames_since_keyframe : ℕ
  keyframe_estimation_debug_data_or_none : Option KeyframeEstimationDebugData
  keyframe_tracking_debug_data_or_none : Option KeyframeTrackingDebugData
deriving DecidableEq

/-- Modelled from the spec: the frontend's per-frame output (§3): baselink
pose estimate plus the debug payload. -/
structure FrontendTrackingResult where
  baselink_pose_estimate : PoseQ
  debug_data : FrontendResultDebugData
deriving DecidableEq

/-- Modelled from the spec: §4.6 Tracking Quality Estimator configuration
(`FrontendPoseQualityEstimator(minimum_number_of_matches, max_allowed_error)`
in the lesson). -/
structure FrontendPoseQualityEstimator where
  minimum_number_of_matches : ℕ
  max_allowed_error : ℚ

/-- Modelled from the spec: §4.6 — pure function of (number of
correspondences used, final mean reprojection error); REJECT if either bound
is violated. -/
def FrontendPoseQualityEstimator.accepts (q : FrontendPoseQualityEstimator)
    (n_matches : ℕ) (mean_error : ℚ) : Bool :=
  decide (q.minimum_number_of_matches ≤ n_matches) &&
    decide (mean_error ≤ q.max_allowed_error)

/-- Modelled from the spec: the outcome of the §4.4 PnP solve on a tracking
batch — CONVERGED with refined pose and final mean reprojection error, or the
SingularSystem / Divergence failures of §7. -/
inductive SolveOutcome where
  | converged (pose : PoseQ) (mean_error : ℚ)
  | singular
  | diverged
deriving DecidableEq

/-- Modelled from the spec: what one observation contributes to the frontend
after the external collaborators (§6) are abstracted: the matches of its own
stereo pair (used by keyframe-estimation mode for triangulation), the matches
against the current keyframe (used by keyframe-tracking mode), and the solver
outcome on that tracking batch. -/
structure ObservationModel where
  stereo_matches : List ℕ
  keyframe_matches : List ℕ
  solve_outcome : SolveOutcome

/-- Modelled from the spec: the frontend's own fields (§4.7): the current
keyframe's landmark set (none before the first keyframe), the
frames-since-keyframe counter, and the current pose guess (the predictor of
§4.5 abstracted to its produced guess). -/
structure FrontendState where
  keyframe_landmarks : Option (List ℕ)
  frames_since_keyframe : ℕ
  pose_guess : PoseQ

/-- Modelled from the spec: §7 — the only unrecoverable condition, zero
matches even for keyframe-estimation mode, reported upward as a hard
tracking failure for the frame. -/
inductive HardTrackingFailure where
  | noMatchesForKeyframe
deriving DecidableEq

/-- Modelled from the spec: keyframe-estimation mode (§4.7): triangulate
landmarks from the observation's own stereo matches, adopt the predicted pose
as the keyframe pose, reset the counter to 0 and emit the
keyframe-estimation debug variant.  Fails (hard) only when the stereo pair
yields zero matches (§7). -/
def makeKeyframe (s : FrontendState) (o : ObservationModel) :
    Except HardTrackingFailure (FrontendState × FrontendTrackingResult) :=
  if o.stereo_matches = [] then .error .noMatchesForKeyframe
  else
    .ok ({ keyframe_landmarks := some o.stereo_matches,
           frames_since_keyframe := 0,
           pose_guess := s.pose_guess },
         { baselink_pose_estimate := s.pose_guess,
           debug_data :=
             { frames_since_keyframe := 0,
               keyframe_estimation_debug_data_or_none :=
                 some { relevant_feature_matches := o.stereo_matches },
               keyframe_tracking_debug_data_or_none := none } })

/-- Modelled from the spec: `Frontend.track` (§4.7): keyframe-estimation mode
when no keyframe exists; otherwise keyframe-tracking mode — InsufficientMatches
(§7.d) short-circuits to keyframe replacement, SingularSystem and Divergence
(§7.b, §7.c) are treated identically to a quality REJECT, and a CONVERGED
solve is gated by the §4.6 quality estimator: accept (increment the counter,
emit the tracking debug variant) or reject (fall back to keyframe-estimation
mode on this same observation). -/
def Frontend.track (quality : FrontendPoseQualityEstimator)
    (s : FrontendState) (o : ObservationModel) :
    Except HardTrackingFailure (FrontendState × FrontendTrackingResult) :=
  match s.keyframe_landmarks with
  | none => makeKeyframe s o
  | some _ =>
    if o.keyframe_matches.length < quality.minimum_number_of_matches then
      makeKeyframe s o
    else
      match o.solve_outcome with
      | .singular => makeKeyframe s o
      | .diverged => makeKeyframe s o
      | .converged pose mean_error =>
        if quality.accepts o.keyframe_matches.length mean_error then
          .ok ({ s with frames_since_keyframe := s.frames_since_keyframe + 1,
                        pose_guess := pose },
               { baselink_pose_estimate := pose,
                 debug_data :=
                   { frames_since_keyframe := s.frames_since_keyframe + 1,
                     keyframe_estimation_debug_data_or_none := none,
                     keyframe_tracking_debug_data_or_none :=
                       some { all_feature_matches := o.keyframe_matches } } })
        else makeKeyframe s o

/-- Modelled from the spec: the ordinary tracking-loss conditions named in
§7 for a tracking-mode frame — InsufficientMatches, SingularSystem or
Divergence. -/
def OrdinaryTrackingLoss (quality : FrontendPoseQualityEstimator)
    (s : FrontendState) (o : ObservationModel) : Prop :=
  s.keyframe_landmarks ≠ none ∧
    (o.keyframe_matches.length < quality.minimum_number_of_matches ∨
      o.solve_outcome = .singular ∨ o.solve_outcome = .diverged)

/-! ## Theorems -/

/-- Appending to a bounded deque of at most 64 entries yields
`min (n + 1) 64` entries. -/
theorem dequeAppend64_length {α : Type} (d : List α) (x : α)
    (h : d.length ≤ 64) :
    (dequeAppend64 d x).length = min (d.length + 1) 64 := by
  unfold dequeAppend64
  split
  · simp only [List.length_append, List.length_singleton]
    omega
  · simp only [List.length_append, List.length_tail, List.length_singleton]
    omega

/-- The appended element is the last element of the bounded deque. -/
theorem dequeAppend64_getLast {α : Type} (d : List α) (x : α) :
    (dequeAppend64 d x).getLast? = some x := by
  unfold dequeAppend64
  split <;> simp

/-- The equal-length-and-bounded invariant of the two pose-history buffers is
preserved by every debugger call. -/
theorem runDebuggerOps_invariant (d : LocalizationDebugger)
    (ops : List DebuggerOp)
    (h : d.estimated_pose_history.length = d.ground_truth_pose_history.length ∧
      d.estimated_pose_history.length ≤ 64) :
    (runDebuggerOps d ops).estimated_pose_history.length =
      (runDebuggerOps d ops).ground_truth_pose_history.length ∧
    (runDebuggerOps d ops).estimated_pose_history.length ≤ 64 := by
  induction ops generalizing d with
  | nil => exact h
  | cons op ops ih =>
    cases op with
    | addKeyframe pose img =>
      exact ih _ h
    | addPoseEstimate gt est img =>
      refine ih _ ⟨?_, ?_⟩
      · rw [LocalizationDebugger.add_pose_estimate]
        simp only
        rw [dequeAppend64_length _ _ h.2, dequeAppend64_length _ _ (h.1 ▸ h.2), h.1]
      · rw [LocalizationDebugger.add_pose_estimate]
        simp only
        rw [dequeAppend64_length _ _ h.2]
        omega

/-- C4: for every 3D point in the acting camera's flipped frame with depth
`z > 0`, `project` returns the normalized coordinates `(x/z, y/z)`; for every
point with `z <= 0` it fails (returns the `none` sentinel modelling the
DegenerateDepth condition) rather than returning a 2D point. -/
theorem project_normalizes_iff_positive_depth (x y z : ℚ) :
    (0 < z → project ![x, y, z] = some ![x / z, y / z]) ∧
    (z ≤ 0 → project ![x, y, z] = none) := by
  constructor
  · intro h
    simp [project, h]
  · intro h
    simp [project, not_lt.mpr h]

/-- Witness for C4: both branches evaluated at concrete points. -/
theorem project_normalizes_iff_positive_depth_witness :
    project ![1, 2, 4] = some ![1 / 4, 2 / 4] ∧ project ![1, 2, -4] = none :=
  ⟨(project_normalizes_iff_positive_depth 1 2 4).1 (by norm_num),
   (project_normalizes_iff_positive_depth 1 2 (-4)).2 (by norm_num)⟩

/-- C5: for the velocity-based pose predictor, after `update(P1)` then
`update(P2)`, `predict()` returns `P2 ∘ (P1⁻¹ ∘ P2)` (constant-velocity
extrapolation of the last delta); and on the very first call with no
history, `predict()` returns the configured default pose. -/
theorem velocity_pose_tracker_predict_spec (P0 P1 P2 : PoseQ) :
    (VelocityPoseTracker.build P0).predict = P0 ∧
    (((VelocityPoseTracker.build P0).update P1).update P2).predict =
      P2 * (SE3_inverse P1 * P2) :=
  ⟨rfl, rfl⟩

/-- C9: the claim that every keyword argument passed by `_process_debug_info`
is accepted by the corresponding `LocalizationDebugger` method is false on
the code: `add_keyframe` does not accept `keyframe_left_img` (nor
`keyframe_right_img`, `feature_matches_or_none`), and `add_pose_estimate`
does not accept `current_left_eye_image` (nor `current_right_eye_image`,
`feature_matches_or_none`, `frames_since_keyframe`); both calls raise an
unexpected-keyword-argument TypeError. -/
theorem process_debug_info_kwargs_mismatch :
    (¬ kwargsAccepted add_keyframe_call_kwargs add_keyframe_params) ∧
    (¬ kwargsAccepted add_pose_estimate_call_kwargs add_pose_estimate_params) ∧
    "keyframe_left_img" ∈ add_keyframe_call_kwargs ∧
    "keyframe_left_img" ∉ add_keyframe_params ∧
    "current_left_eye_image" ∈ add_pose_estimate_call_kwargs ∧
    "current_left_eye_image" ∉ add_pose_estimate_params := by
  decide

/-- C10: starting from a fresh `LocalizationDebugger`, after any sequence of
`add_keyframe` / `add_pose_estimate` calls the two pose-history buffers have
equal length and hold at most 64 entries; moreover each further
`add_pose_estimate` appends exactly one entry at the end of each buffer
(lengths grow as `min (n+1) 64`, so the oldest entry is evicted once 64 is
reached, and the appended entries are the passed poses). -/
theorem localization_debugger_histories_bounded_and_aligned
    (ops : List DebuggerOp) :
    (runDebuggerOps LocalizationDebugger.from_scene ops).estimated_pose_history.length =
      (runDebuggerOps LocalizationDebugger.from_scene ops).ground_truth_pose_history.length ∧
    (runDebuggerOps LocalizationDebugger.from_scene ops).estimated_pose_history.length ≤ 64 ∧
    ∀ gt est : PoseQ, ∀ img : ℕ,
      (((runDebuggerOps LocalizationDebugger.from_scene ops).add_pose_estimate
          gt est img).estimated_pose_history.length =
        min ((runDebuggerOps LocalizationDebugger.from_scene ops).estimated_pose_history.length + 1) 64) ∧
      (((runDebuggerOps LocalizationDebugger.from_scene ops).add_pose_estimate
          gt est img).ground_truth_pose_history.length =
        min ((runDebuggerOps LocalizationDebugger.from_scene ops).ground_truth_pose_history.length + 1) 64) ∧
      (((runDebuggerOps LocalizationDebugger.from_scene ops).add_pose_estimate
          gt est img).estimated_pose_history.getLast? = some est) ∧
      (((runDebuggerOps LocalizationDebugger.from_scene ops).add_pose_estimate
          gt est img).ground_truth_pose_history.getLast? = some gt) := by
  obtain ⟨heq, hle⟩ := runDebuggerOps_invariant LocalizationDebugger.from_scene ops
    ⟨rfl, by simp [LocalizationDebugger.from_scene]⟩
  refine ⟨heq, hle, fun gt est img => ⟨?_, ?_, ?_, ?_⟩⟩
  · exact dequeAppend64_length _ _ hle
  · exact dequeAppend64_length _ _ (heq ▸ hle)
  · exact dequeAppend64_getLast _ _
  · exact dequeAppend64_getLast _ _

/-- Python's float modulus by a positive modulus is nonnegative. -/
theorem pythonMod_nonneg (a b : ℝ) (hb : 0 < b) : 0 ≤ pythonMod a b := by
  have hfr : pythonMod a b = b * Int.fract (a / b) := by
    rw [pythonMod, Int.fract]
    field_simp
  rw [hfr]
  exact mul_nonneg hb.le (Int.fract_nonneg _)

/-- Python's float modulus by a positive modulus is below the modulus. -/
theorem pythonMod_lt (a b : ℝ) (hb : 0 < b) : pythonMod a b < b := by
  have hfr : pythonMod a b = b * Int.fract (a / b) := by
    rw [pythonMod, Int.fract]
    field_simp
  rw [hfr]
  calc b * Int.fract (a / b) < b * 1 :=
        mul_lt_mul_of_pos_left (Int.fract_lt_one _) hb
    _ = b := mul_one b

/-- C8: for every pair of angles, `get_angular_error(est_theta, gt_theta)`
returns a value in the half-open interval `[-pi, pi)` that is congruent to
`est_theta - gt_theta` modulo `2*pi`. -/
theorem get_angular_error_range_and_congruence (est_theta gt_theta : ℝ) :
    -Real.pi ≤ get_angular_error est_theta gt_theta ∧
    get_angular_error est_theta gt_theta < Real.pi ∧
    ∃ k : ℤ, get_angular_error est_theta gt_theta - (est_theta - gt_theta) =
      2 * Real.pi * k := by
  have hb : (0 : ℝ) < 2 * Real.pi := by positivity
  have h0 := pythonMod_nonneg (est_theta - gt_theta + Real.pi) (2 * Real.pi) hb
  have h1 := pythonMod_lt (est_theta - gt_theta + Real.pi) (2 * Real.pi) hb
  refine ⟨?_, ?_, ⟨-⌊(est_theta - gt_theta + Real.pi) / (2 * Real.pi)⌋, ?_⟩⟩
  · rw [get_angular_error]
    linarith
  · rw [get_angular_error]
    linarith
  · rw [get_angular_error, pythonMod]
    push_cast
    ring

/-- The `dxs` accumulator built by the descent loop is the per-correspondence
map of the raw product `J @ e`, appended after whatever the accumulator
already held. -/
theorem descentScan_fold_dxs (inv_pose : PoseR)
    (pts : List ((Fin 3 → ℝ) × (Fin 2 → ℝ))) (acc : DescentAcc) :
    (pts.foldl (descentBody inv_pose) acc).dxs =
      acc.dxs ++ pts.map (fun pq =>
        estimate_J_analytically pq.1 inv_pose *ᵥ
          _compute_reprojection_error pq.1 pq.2 inv_pose) := by
  induction pts generalizing acc with
  | nil => simp
  | cons hd tl ih =>
    rw [List.foldl_cons, ih, List.map_cons]
    simp [descentBody]

/-- C2: in the first-order-descent experiment, for every correspondence the
per-correspondence step is the raw product of the analytic Jacobian and the
residual (`dx = J @ e`), and the applied batch step `dx_est` is exactly the
componentwise average of those raw products across the batch — no 6×6 linear
system (normal equations) enters the computation of the step. -/
theorem descent_step_is_mean_of_raw_jacobian_residual_products
    (pts : List ((Fin 3 → ℝ) × (Fin 2 → ℝ))) (inv_pose : PoseR) :
    (descentScan inv_pose pts).dxs =
      pts.map (fun pq =>
        estimate_J_analytically pq.1 inv_pose *ᵥ
          _compute_reprojection_error pq.1 pq.2 inv_pose) ∧
    descentDxEst pts inv_pose =
      ((pts.length : ℝ))⁻¹ •
        (pts.map (fun pq =>
          estimate_J_analytically pq.1 inv_pose *ᵥ
            _compute_reprojection_error pq.1 pq.2 inv_pose)).sum := by
  have h : (descentScan inv_pose pts).dxs =
      pts.map (fun pq =>
        estimate_J_analytically pq.1 inv_pose *ᵥ
          _compute_reprojection_error pq.1 pq.2 inv_pose) := by
    rw [descentScan, descentScan_fold_dxs]
    rfl
  refine ⟨h, ?_⟩
  rw [descentDxEst, vecMean, h, List.length_map]

/-- The skew matrix of the zero rotation vector vanishes. -/
theorem skewR_eq_zero {w : Fin 3 → ℝ} (h0 : w 0 = 0) (h1 : w 1 = 0)
    (h2 : w 2 = 0) : skewR w = 0 := by
  ext i j
  fin_cases i <;> fin_cases j <;>
    simp [skewR, h0, h1, h2, Matrix.vecHead, Matrix.vecTail]

/-- With zero rotational part, the translation block generator `V` of the
SE(3) exponential is the identity. -/
theorem se3ExpV_of_zero_rot {w : Fin 3 → ℝ} (h0 : w 0 = 0) (h1 : w 1 = 0)
    (h2 : w 2 = 0) : se3ExpV w = 1 := by
  rw [se3ExpV, skewR_eq_zero h0 h1 h2]
  simp

/-- The top-right translation entry of the SE(3) exponential of a pure
translation tangent is its first coordinate. -/
theorem se3Exp_entry_zero_three (t : Fin 6 → ℝ) (h3 : t 3 = 0)
    (h4 : t 4 = 0) (h5 : t 5 = 0) : se3Exp t 0 3 = t 0 := by
  have hv : se3ExpV (rotPartOf t) = 1 :=
    se3ExpV_of_zero_rot (by simp [rotPartOf, h3]) (by simp [rotPartOf, h4])
      (by simp [rotPartOf, h5])
  rw [se3Exp, Matrix.of_apply]
  rw [dif_pos (by decide : ((0 : Fin 4) : ℕ) < 3)]
  rw [dif_neg (by decide : ¬ ((3 : Fin 4) : ℕ) < 3)]
  rw [hv, Matrix.one_mulVec]
  simp [transPartOf]

/-- The step applied in `_overfit_one_point`: a pure unit translation along
the first tangent coordinate. -/
def unitTransStep : Fin 6 → ℝ := fun k => if k = 0 then 1 else 0

/-- C3 counterexample: at the concrete step `dx = unitTransStep` and identity
pose, the update performed by `_overfit_one_point` (line 133,
`exp(-0.1 * dx) @ pose`) is not `exp(-dx) @ pose`: the code damps the step by
the 0.1 learning rate before exponentiating, so the claim as stated fails on
`_overfit_one_point`. -/
theorem overfit_update_is_not_exp_of_negated_step :
    applyOverfitStep unitTransStep 1 ≠ se3Exp (-unitTransStep) * 1 := by
  intro h
  rw [applyOverfitStep, mul_one, mul_one] at h
  have h03 := congrFun (congrFun h 0) 3
  rw [se3Exp_entry_zero_three _ (by simp [unitTransStep]) (by simp [unitTransStep])
      (by simp [unitTransStep])] at h03
  rw [se3Exp_entry_zero_three _ (by simp [unitTransStep]) (by simp [unitTransStep])
      (by simp [unitTransStep])] at h03
  simp only [Pi.smul_apply, Pi.neg_apply, unitTransStep, if_pos rfl,
    smul_eq_mul, mul_one] at h03
  norm_num at h03

/-- C3 (amended): each iterative pose update is applied as a left tangent
perturbation by the exponential of a negated step: in
`_solve_many_points_first_order_descent` (line 172) the new inverse pose is
`exp(-dx_est) · inv_pose` with `dx_est` the averaged batch step, while in
`_overfit_one_point` (line 133) the computed step `dx = J @ e` is first
damped by the 0.1 learning rate, giving `exp(-0.1 · dx) · inv_pose`. -/
theorem pose_updates_left_multiply_exp_of_negated_step
    (pts : List ((Fin 3 → ℝ) × (Fin 2 → ℝ))) (point_3d : Fin 3 → ℝ)
    (point_2d : Fin 2 → ℝ) (inv_pose : PoseR) :
    descentIteration pts inv_pose =
      se3Exp (-(descentDxEst pts inv_pose)) * inv_pose ∧
    overfitIteration point_3d point_2d inv_pose =
      se3Exp ((-0.1 : ℝ) • overfitDx point_3d point_2d inv_pose) * inv_pose :=
  ⟨rfl, rfl⟩

/-- A successful keyframe-estimation step emits the estimation debug variant
with counter 0 and no tracking payload, and installs the stereo matches as
the new keyframe's landmark set. -/
theorem makeKeyframe_ok {s : FrontendState} {o : ObservationModel}
    {s2 : FrontendState} {r : FrontendTrackingResult}
    (h : makeKeyframe s o = .ok (s2, r)) :
    r.debug_data.frames_since_keyframe = 0 ∧
    r.debug_data.keyframe_estimation_debug_data_or_none =
      some { relevant_feature_matches := o.stereo_matches } ∧
    r.debug_data.keyframe_tracking_debug_data_or_none = none ∧
    s2.keyframe_landmarks = some o.stereo_matches ∧
    s2.frames_since_keyframe = 0 := by
  rw [makeKeyframe] at h
  split at h
  · exact absurd h (by simp)
  · rw [Except.ok.injEq, Prod.mk.injEq] at h
    obtain ⟨hs, hr⟩ := h
    subst hs
    subst hr
    exact ⟨rfl, rfl, rfl, rfl, rfl⟩

/-- Keyframe estimation succeeds whenever the stereo pair yields at least one
match. -/
theorem makeKeyframe_isOk {s : FrontendState} {o : ObservationModel}
    (h : o.stereo_matches ≠ []) :
    ∃ p, makeKeyframe s o = .ok p := by
  rw [makeKeyframe, if_neg h]
  exact ⟨_, rfl⟩

/-- C6: every `FrontendTrackingResult` produced by the frontend populates
exactly one of the two debug payload variants: the keyframe-estimation
payload if and only if the frames-since-keyframe counter is 0, the
keyframe-tracking payload if and only if the counter is greater than 0, and
never both. -/
theorem tracking_result_debug_variants_mutually_exclusive
    (quality : FrontendPoseQualityEstimator) (s : FrontendState)
    (o : ObservationModel) (s2 : FrontendState) (r : FrontendTrackingResult)
    (h : Frontend.track quality s o = .ok (s2, r)) :
    (r.debug_data.keyframe_estimation_debug_data_or_none.isSome ↔
      r.debug_data.frames_since_keyframe = 0) ∧
    (r.debug_data.keyframe_tracking_debug_data_or_none.isSome ↔
      0 < r.debug_data.frames_since_keyframe) ∧
    ¬(r.debug_data.keyframe_estimation_debug_data_or_none.isSome ∧
      r.debug_data.keyframe_tracking_debug_data_or_none.isSome) := by
  rw [Frontend.track] at h
  have est_case : ∀ {s3 : FrontendState} {r2 : FrontendTrackingResult},
      makeKeyframe s o = .ok (s3, r2) →
      (r2.debug_data.keyframe_estimation_debug_data_or_none.isSome ↔
        r2.debug_data.frames_since_keyframe = 0) ∧
      (r2.debug_data.keyframe_tracking_debug_data_or_none.isSome ↔
        0 < r2.debug_data.frames_since_keyframe) ∧
      ¬(r2.debug_data.keyframe_estimation_debug_data_or_none.isSome ∧
        r2.debug_data.keyframe_tracking_debug_data_or_none.isSome) := by
    intro s3 r2 h2
    obtain ⟨h0, hsome, hnone, _, _⟩ := makeKeyframe_ok h2
    rw [h0, hsome, hnone]
    simp
  split at h
  · exact est_case h
  · split at h
    · exact est_case h
    · split at h
      · exact est_case h
      · exact est_case h
      · split at h
        · rw [Except.ok.injEq, Prod.mk.injEq] at h
          obtain ⟨_, hr⟩ := h
          subst hr
          simp
        · exact est_case h

/-- C7: for every observation whose stereo pair yields at least one match,
`Frontend.track` returns a `TrackingResult` (no exception escapes); and
whenever the observation induces an ordinary tracking loss (insufficient
matches, singular system, or solver divergence), the failure is handled
internally as a REJECT-triggered keyframe replacement: the returned result
has frames-since-keyframe 0 and the state's keyframe is rebuilt from this
observation's stereo matches. -/
theorem track_returns_result_and_loss_replaces_keyframe
    (quality : FrontendPoseQualityEstimator) (s : FrontendState)
    (o : ObservationModel) (hstereo : o.stereo_matches ≠ []) :
    (∃ p, Frontend.track quality s o = .ok p) ∧
    (OrdinaryTrackingLoss quality s o →
      ∃ s2 r, Frontend.track quality s o = .ok (s2, r) ∧
        r.debug_data.frames_since_keyframe = 0 ∧
        s2.keyframe_landmarks = some o.stereo_matches ∧
        s2.frames_since_keyframe = 0) := by
  have hmk : ∃ p, makeKeyframe s o = .ok p := makeKeyframe_isOk hstereo
  have hmk2 : ∃ s2 r, makeKeyframe s o = .ok (s2, r) ∧
      r.debug_data.frames_since_keyframe = 0 ∧
      s2.keyframe_landmarks = some o.stereo_matches ∧
      s2.frames_since_keyframe = 0 := by
    obtain ⟨⟨s2, r⟩, hp⟩ := hmk
    obtain ⟨h0, _, _, hkl, hfs⟩ := makeKeyframe_ok hp
    exact ⟨s2, r, hp, h0, hkl, hfs⟩
  constructor
  · rw [Frontend.track]
    split
    · exact hmk
    · split
      · exact hmk
      · split
        · exact hmk
        · exact hmk
        · split
          · exact ⟨_, rfl⟩
          · exact hmk
  · rintro ⟨hkf, hloss⟩
    rw [Frontend.track]
    split
    · exact absurd (by assumption) hkf
    · split
      · exact hmk2
      · split
        · exact hmk2
        · exact hmk2
        · rcases hloss with hlen | hsing | hdiv
          · omega
          · simp_all
          · simp_all

/-- A permissive quality configuration used by the concrete witnesses. -/
def exQuality : FrontendPoseQualityEstimator :=
  { minimum_number_of_matches := 1, max_allowed_error := 0 }

/-- A fresh frontend state (no keyframe yet) used by the C6 witness. -/
def exFreshState : FrontendState :=
  { keyframe_landmarks := none, frames_since_keyframe := 0, pose_guess := 1 }

/-- An observation with one stereo match whose tracking solve is singular. -/
def exObs : ObservationModel :=
  { stereo_matches := [5], keyframe_matches := [], solve_outcome := .singular }

/-- The frontend state produced by tracking `exObs` from `exFreshState`. -/
def exNewState : FrontendState :=
  { keyframe_landmarks := some [5], frames_since_keyframe := 0,
    pose_guess := 1 }

/-- The tracking result produced by tracking `exObs` from `exFreshState`. -/
def exResult : FrontendTrackingResult :=
  { baselink_pose_estimate := 1,
    debug_data :=
      { frames_since_keyframe := 0,
        keyframe_estimation_debug_data_or_none :=
          some { relevant_feature_matches := [5] },
        keyframe_tracking_debug_data_or_none := none } }

/-- Witness for C6: the mutual-exclusion property evaluated on a concrete
frontend step. -/
theorem tracking_result_debug_variants_witness :
    (exResult.debug_data.keyframe_estimation_debug_data_or_none.isSome ↔
      exResult.debug_data.frames_since_keyframe = 0) ∧
    (exResult.debug_data.keyframe_tracking_debug_data_or_none.isSome ↔
      0 < exResult.debug_data.frames_since_keyframe) ∧
    ¬(exResult.debug_data.keyframe_estimation_debug_data_or_none.isSome ∧
      exResult.debug_data.keyframe_tracking_debug_data_or_none.isSome) :=
  tracking_result_debug_variants_mutually_exclusive exQuality exFreshState
    exObs exNewState exResult rfl

/-- A frontend state that is two frames into tracking a keyframe. -/
def exTrackState : FrontendState :=
  { keyframe_landmarks := some [1], frames_since_keyframe := 2,
    pose_guess := 1 }

/-- An observation inducing an ordinary tracking loss (no keyframe matches,
singular solve) while its stereo pair still yields a match. -/
def exLossObs : ObservationModel :=
  { stereo_matches := [7], keyframe_matches := [], solve_outcome := .singular }

/-- Witness for C7: tracking through an ordinary loss on a concrete
observation returns a result with the keyframe replaced. -/
theorem track_returns_result_witness :
    (∃ p, Frontend.track exQuality exTrackState exLossObs = .ok p) ∧
    (OrdinaryTrackingLoss exQuality exTrackState exLossObs →
      ∃ s2 r, Frontend.track exQuality exTrackState exLossObs = .ok (s2, r) ∧
        r.debug_data.frames_since_keyframe = 0 ∧
        s2.keyframe_landmarks = some exLossObs.stereo_matches ∧
        s2.frames_since_keyframe = 0) :=
  track_returns_result_and_loss_replaces_keyframe exQuality exTrackState
    exLossObs (by decide)

end VSLAM
